import Mathlib

/-!
Verification of the scoring and persistence core of the
PersonalityAndMusicInsights web application.

The development shallowly embeds the relevant Python functions:

* `survey.py`: `calculate_scores` with its hard-coded `scoring_keys`
  (Big-Five trait scoring over a possibly incomplete answer map);
* `db_utils.py`: `upsert_user_document` (MongoDB upsert of one section of a
  unified per-user document), the `retry_connection` decorator, and
  `get_user_data`;
* `spotify.py`: `save_spotify_data` and `fetch_and_save_all_data`.

Python dicts keyed by question number are embedded as association lists with
first-occurrence lookup; the MongoDB document store is a function from user
id to an optional document; the dollar-set operation on a dotted path is
embedded as replacement in the corresponding association list of the
document.
-/

set_option autoImplicit false
set_option linter.unusedVariables false

/-! ## Survey scoring (`survey.py`, `calculate_scores`) -/

/-- An entry of a `scoring_keys` list in `survey.py`: either a bare question
number, or a `(question_num, reverse)` tuple. -/
inductive SItem where
  | plain (q : Nat)
  | tup (q : Nat) (reverse : Bool)
deriving DecidableEq, Repr

/-- The hard-coded `scoring_keys` dictionary of `calculate_scores`
(`survey.py` lines 224-230), verbatim: every tuple in the source carries
reverse flag `True`. -/
def scoring_keys : List (String × List SItem) :=
  [ ("Extraversion",
      [SItem.plain 1, SItem.tup 6 true, SItem.plain 11, SItem.plain 16,
       SItem.tup 21 true, SItem.plain 26, SItem.tup 31 true, SItem.plain 36]),
    ("Agreeableness",
      [SItem.tup 2 true, SItem.plain 7, SItem.tup 12 true, SItem.plain 17,
       SItem.plain 22, SItem.tup 27 true, SItem.plain 32, SItem.tup 37 true,
       SItem.plain 42]),
    ("Conscientiousness",
      [SItem.plain 3, SItem.tup 8 true, SItem.plain 13, SItem.tup 18 true,
       SItem.tup 23 true, SItem.plain 28, SItem.plain 33, SItem.plain 38,
       SItem.tup 43 true]),
    ("Neuroticism",
      [SItem.plain 4, SItem.tup 9 true, SItem.plain 14, SItem.plain 19,
       SItem.tup 24 true, SItem.plain 29, SItem.tup 34 true, SItem.plain 39]),
    ("Openness",
      [SItem.plain 5, SItem.plain 10, SItem.plain 15, SItem.plain 20,
       SItem.plain 25, SItem.plain 30, SItem.tup 35 true, SItem.plain 40,
       SItem.tup 41 true, SItem.plain 44]) ]

/-- An answer map: question number to raw Likert value.  Python's `responses`
dict is embedded as an association list read with first-occurrence lookup. -/
abbrev Responses := List (Nat × Int)

/-- The accumulation loop of `calculate_scores` for one dimension
(`survey.py` lines 235-247): returns the pair `(total, count)`.  A tuple item
contributes `6 - v` and increments the count only when its reverse flag is
true and the question is answered; a plain item contributes `v` when
answered. -/
def tally (responses : Responses) : List SItem → Int × Nat
  | [] => (0, 0)
  | item :: rest =>
    let step : Int × Nat :=
      match item with
      | SItem.tup q r =>
        if r then
          match responses.lookup q with
          | some v => (6 - v, 1)
          | none => (0, 0)
        else (0, 0)
      | SItem.plain q =>
        match responses.lookup q with
        | some v => (v, 1)
        | none => (0, 0)
    let acc := tally responses rest
    (step.1 + acc.1, step.2 + acc.2)

/-- The per-dimension result of `calculate_scores` (`survey.py` line 249):
`total / count if count > 0 else 0`, with Python's true division embedded as
rational division. -/
def dimension_score (responses : Responses) (items : List SItem) : ℚ :=
  let t := tally responses items
  if 0 < t.2 then (t.1 : ℚ) / (t.2 : ℚ) else 0

/-- `calculate_scores` (`survey.py` lines 222-251): the scores dict, one entry
per dimension of `scoring_keys`. -/
def calculate_scores (responses : Responses) : List (String × ℚ) :=
  scoring_keys.map fun p => (p.1, dimension_score responses p.2)

/-! ### Specification-side definitions for the scoring claims -/

/-- The question number an item is mapped to. -/
def item_q : SItem → Nat
  | SItem.plain q => q
  | SItem.tup q _ => q

/-- Whether an item is reverse-coded. -/
def item_rev : SItem → Bool
  | SItem.plain _ => false
  | SItem.tup _ r => r

/-- Whether an item's question is present in the answer map. -/
def item_present (responses : Responses) (it : SItem) : Bool :=
  (responses.lookup (item_q it)).isSome

/-- The mapped items of a trait that are present in the answer map. -/
def present_items (responses : Responses) (items : List SItem) : List SItem :=
  items.filter (item_present responses)

/-- The contribution of a mapped item, as stated by the spec: a reverse-coded
item with raw value v contributes `6 - v`, a non-reverse item contributes v;
an absent item contributes nothing (the value is irrelevant, 0 by
convention). -/
def contribution (responses : Responses) (it : SItem) : ℚ :=
  match responses.lookup (item_q it) with
  | some v => if item_rev it then 6 - (v : ℚ) else (v : ℚ)
  | none => 0

/-- The spec's trait score: the arithmetic mean of the contributions of
exactly the mapped items present in the answer map, and 0 when none are
present. -/
def mean_score (responses : Responses) (items : List SItem) : ℚ :=
  let ps := present_items responses items
  if ps.length = 0 then 0
  else ((ps.map (contribution responses)).sum) / (ps.length : ℚ)

/-- All tuple items in a list carry reverse flag true (a property of every
trait list in `scoring_keys`). -/
def allTupsTrue : List SItem → Bool
  | [] => true
  | SItem.plain _ :: rest => allTupsTrue rest
  | SItem.tup _ r :: rest => r && allTupsTrue rest

theorem scoring_keys_allTupsTrue : ∀ p ∈ scoring_keys, allTupsTrue p.2 = true := by
  decide

theorem tally_count_eq (responses : Responses) (items : List SItem)
    (h : allTupsTrue items = true) :
    (tally responses items).2 = (present_items responses items).length := by
  induction items with
  | nil => rfl
  | cons it rest ih =>
    cases it with
    | plain q =>
      have hrest : allTupsTrue rest = true := h
      cases hq : responses.lookup q with
      | none =>
        simp [tally, present_items, List.filter, item_present, item_q, hq,
          ih hrest]
      | some v =>
        simp [tally, present_items, List.filter, item_present, item_q, hq,
          ih hrest, Nat.add_comm]
    | tup q r =>
      rw [allTupsTrue, Bool.and_eq_true] at h
      have hr : r = true := h.1
      have hrest : allTupsTrue rest = true := h.2
      subst hr
      cases hq : responses.lookup q with
      | none =>
        simp [tally, present_items, List.filter, item_present, item_q, hq,
          ih hrest]
      | some v =>
        simp [tally, present_items, List.filter, item_present, item_q, hq,
          ih hrest, Nat.add_comm]

theorem tally_total_eq (responses : Responses) (items : List SItem)
    (h : allTupsTrue items = true) :
    ((tally responses items).1 : ℚ)
      = ((present_items responses items).map (contribution responses)).sum := by
  induction items with
  | nil => simp [tally, present_items]
  | cons it rest ih =>
    cases it with
    | plain q =>
      have hrest : allTupsTrue rest = true := h
      cases hq : responses.lookup q with
      | none =>
        simp [tally, present_items, List.filter, item_present, item_q, hq,
          ih hrest]
      | some v =>
        simp [tally, present_items, List.filter, item_present, item_q, hq,
          ih hrest, contribution, item_rev]
    | tup q r =>
      rw [allTupsTrue, Bool.and_eq_true] at h
      have hr : r = true := h.1
      have hrest : allTupsTrue rest = true := h.2
      subst hr
      cases hq : responses.lookup q with
      | none =>
        simp [tally, present_items, List.filter, item_present, item_q, hq,
          ih hrest]
      | some v =>
        simp [tally, present_items, List.filter, item_present, item_q, hq,
          ih hrest, contribution, item_rev]

theorem lookup_mem {l : Responses} {a : Nat} {b : Int}
    (h : l.lookup a = some b) : (a, b) ∈ l := by
  rcases List.lookup_eq_some_iff.mp h with ⟨l₁, l₂, rfl, -⟩
  simp

theorem tally_bounds (responses : Responses)
    (hvals : ∀ p ∈ responses, 1 ≤ p.2 ∧ p.2 ≤ 5) (items : List SItem) :
    ((tally responses items).2 : Int) ≤ (tally responses items).1 ∧
    (tally responses items).1 ≤ 5 * ((tally responses items).2 : Int) := by
  induction items with
  | nil => simp [tally]
  | cons it rest ih =>
    cases it with
    | plain q =>
      cases hq : responses.lookup q with
      | none => simpa [tally, hq] using ih
      | some v =>
        have hv := hvals (q, v) (lookup_mem hq)
        have h1 := ih.1
        have h2 := ih.2
        simp only [tally, hq]
        constructor
        · push_cast
          omega
        · push_cast
          push_cast at h2
          omega
    | tup q r =>
      cases r with
      | false => simpa [tally] using ih
      | true =>
        cases hq : responses.lookup q with
        | none => simpa [tally, hq] using ih
        | some v =>
          have hv := hvals (q, v) (lookup_mem hq)
          have h1 := ih.1
          have h2 := ih.2
          simp only [tally, hq, if_pos]
          constructor
          · push_cast
            omega
          · push_cast
            push_cast at h2
            omega

/-- Claim C1: for every answer map with integer Likert values in 1..5
(possibly incomplete), `calculate_scores` returns, for each of the five
traits, the arithmetic mean of the contributions of exactly those of the
trait's fixed mapped items that are present in the map, where a
reverse-coded item with raw value v contributes 6 - v and a non-reverse
item contributes v unchanged; if none of the trait's mapped items are
present, that trait's score is 0. -/
theorem calculate_scores_mean_of_present (responses : Responses)
    (hvals : ∀ p ∈ responses, 1 ≤ p.2 ∧ p.2 ≤ 5)
    (d : String) (items : List SItem)
    (hmem : (d, items) ∈ scoring_keys) :
    (d, dimension_score responses items) ∈ calculate_scores responses ∧
    dimension_score responses items = mean_score responses items := by
  have hall := scoring_keys_allTupsTrue (d, items) hmem
  constructor
  · exact List.mem_map.mpr ⟨(d, items), hmem, rfl⟩
  · simp only [dimension_score, mean_score]
    rw [tally_count_eq responses items hall, tally_total_eq responses items hall]
    by_cases hlen : (present_items responses items).length = 0
    · simp [hlen]
    · have hpos : 0 < (present_items responses items).length :=
        Nat.pos_of_ne_zero hlen
      simp [hlen, hpos]

theorem calculate_scores_mean_of_present_witness :
    ((("Extraversion" : String), dimension_score [((1 : Nat), (3 : Int))]
        [SItem.plain 1, SItem.tup 6 true, SItem.plain 11, SItem.plain 16,
         SItem.tup 21 true, SItem.plain 26, SItem.tup 31 true, SItem.plain 36])
      ∈ calculate_scores [((1 : Nat), (3 : Int))]) ∧
    dimension_score [((1 : Nat), (3 : Int))]
        [SItem.plain 1, SItem.tup 6 true, SItem.plain 11, SItem.plain 16,
         SItem.tup 21 true, SItem.plain 26, SItem.tup 31 true, SItem.plain 36]
      = mean_score [((1 : Nat), (3 : Int))]
        [SItem.plain 1, SItem.tup 6 true, SItem.plain 11, SItem.plain 16,
         SItem.tup 21 true, SItem.plain 26, SItem.tup 31 true, SItem.plain 36] :=
  calculate_scores_mean_of_present [((1 : Nat), (3 : Int))] (by decide)
    "Extraversion"
    [SItem.plain 1, SItem.tup 6 true, SItem.plain 11, SItem.plain 16,
     SItem.tup 21 true, SItem.plain 26, SItem.tup 31 true, SItem.plain 36]
    (by decide)

/-- Claim C7: for every answer map whose values are integers in 1..5 and
every trait, the computed score lies in the interval from 0 to 5, and the
score equals 0 exactly when none of the trait's mapped items are present in
the answer map. -/
theorem dimension_score_bounds (responses : Responses)
    (hvals : ∀ p ∈ responses, 1 ≤ p.2 ∧ p.2 ≤ 5)
    (d : String) (items : List SItem)
    (hmem : (d, items) ∈ scoring_keys) :
    0 ≤ dimension_score responses items ∧
    dimension_score responses items ≤ 5 ∧
    (dimension_score responses items = 0 ↔ present_items responses items = []) := by
  have hall := scoring_keys_allTupsTrue (d, items) hmem
  have hcnt := tally_count_eq responses items hall
  have hb := tally_bounds responses hvals items
  simp only [dimension_score]
  by_cases hpos : 0 < (tally responses items).2
  · rw [if_pos hpos]
    have hc : (0 : ℚ) < ((tally responses items).2 : ℚ) := by exact_mod_cast hpos
    have ht1 : ((tally responses items).2 : ℚ) ≤ ((tally responses items).1 : ℚ) := by
      exact_mod_cast hb.1
    have ht2 : ((tally responses items).1 : ℚ) ≤ 5 * ((tally responses items).2 : ℚ) := by
      exact_mod_cast hb.2
    have hqpos : (0 : ℚ) < ((tally responses items).1 : ℚ) / ((tally responses items).2 : ℚ) :=
      div_pos (lt_of_lt_of_le hc ht1) hc
    refine ⟨le_of_lt hqpos, ?_, ?_⟩
    · rw [div_le_iff₀ hc]
      exact ht2
    · constructor
      · intro h0
        exact absurd h0 (ne_of_gt hqpos)
      · intro hnil
        rw [hnil] at hcnt
        simp at hcnt
        omega
  · rw [if_neg hpos]
    have h2 : (tally responses items).2 = 0 := by omega
    refine ⟨le_refl 0, by norm_num, ?_⟩
    constructor
    · intro _
      rw [h2] at hcnt
      exact List.length_eq_zero.mp hcnt.symm
    · intro _
      rfl

theorem dimension_score_bounds_witness :
    (0 ≤ dimension_score [((1 : Nat), (3 : Int))]
        [SItem.plain 1, SItem.tup 6 true, SItem.plain 11, SItem.plain 16,
         SItem.tup 21 true, SItem.plain 26, SItem.tup 31 true, SItem.plain 36] ∧
     dimension_score [((1 : Nat), (3 : Int))]
        [SItem.plain 1, SItem.tup 6 true, SItem.plain 11, SItem.plain 16,
         SItem.tup 21 true, SItem.plain 26, SItem.tup 31 true, SItem.plain 36] ≤ 5 ∧
     (dimension_score [((1 : Nat), (3 : Int))]
        [SItem.plain 1, SItem.tup 6 true, SItem.plain 11, SItem.plain 16,
         SItem.tup 21 true, SItem.plain 26, SItem.tup 31 true, SItem.plain 36] = 0 ↔
      present_items [((1 : Nat), (3 : Int))]
        [SItem.plain 1, SItem.tup 6 true, SItem.plain 11, SItem.plain 16,
         SItem.tup 21 true, SItem.plain 26, SItem.tup 31 true, SItem.plain 36] = [])) :=
  dimension_score_bounds [((1 : Nat), (3 : Int))] (by decide) "Extraversion"
    [SItem.plain 1, SItem.tup 6 true, SItem.plain 11, SItem.plain 16,
     SItem.tup 21 true, SItem.plain 26, SItem.tup 31 true, SItem.plain 36]
    (by decide)

/-- Claim C9: for the specific answer map with answers 5,1,3,4,2,5,1,3 to
questions 1,6,11,16,21,26,31,36, `calculate_scores` returns an Extraversion
score of exactly 4.25, where the Extraversion entry of `scoring_keys` maps
exactly the items 1, 6, 11, 16, 21, 26, 31, 36, of which 6, 21 and 31 are
reverse-coded. -/
theorem extraversion_concrete_score :
    scoring_keys.lookup "Extraversion"
      = some [SItem.plain 1, SItem.tup 6 true, SItem.plain 11, SItem.plain 16,
              SItem.tup 21 true, SItem.plain 26, SItem.tup 31 true, SItem.plain 36] ∧
    (calculate_scores
        [((1 : Nat), (5 : Int)), (6, 1), (11, 3), (16, 4),
         (21, 2), (26, 5), (31, 1), (36, 3)]).lookup "Extraversion"
      = some ((17 : ℚ) / 4) ∧
    ((17 : ℚ) / 4) = 4.25 := by
  refine ⟨rfl, ?_, by norm_num⟩
  have ht : tally
      [((1 : Nat), (5 : Int)), (6, 1), (11, 3), (16, 4), (21, 2), (26, 5), (31, 1), (36, 3)]
      [SItem.plain 1, SItem.tup 6 true, SItem.plain 11, SItem.plain 16,
       SItem.tup 21 true, SItem.plain 26, SItem.tup 31 true, SItem.plain 36]
      = ((34 : Int), (8 : Nat)) := by decide
  simp [calculate_scores, scoring_keys, List.lookup, dimension_score, ht]
  norm_num

/-! ## Unified per-user document persistence (`db_utils.py`) -/

/-- The location in the per-user document targeted by one save: either a
top-level section name, or a subtype nested under the fixed top-level
`spotify` namespace (the dotted MongoDB path `spotify.<subtype>`). -/
inductive DocPath where
  | top (name : String)
  | sub (subtype : String)
deriving DecidableEq, Repr

/-- The `field_mapping` dict of `upsert_user_document` (`db_utils.py` lines
88-99), verbatim. -/
def field_mapping : List (String × String) :=
  [ ("survey_results", "big5"),
    ("top_tracks_short_term", "spotify"),
    ("top_tracks_long_term", "spotify"),
    ("top_tracks_medium_term", "spotify"),
    ("top_artists_short_term", "spotify"),
    ("top_artists_medium_term", "spotify"),
    ("top_artists_long_term", "spotify"),
    ("recently_played", "spotify"),
    ("playlists", "spotify"),
    ("following", "spotify") ]

/-- Line 101 of `db_utils.py`: `field_mapping.get(data_type, data_type)`. -/
def resolve_field (data_type : String) : String :=
  (field_mapping.lookup data_type).getD data_type

/-- Lines 104-108 of `db_utils.py`: the update key is the dotted path
`spotify.<data_type>` when the resolved field name is `spotify`, and the
resolved field name itself (a top-level key) otherwise. -/
def resolve_path (data_type : String) : DocPath :=
  let field_name := resolve_field data_type
  if field_name = "spotify" then DocPath.sub data_type else DocPath.top field_name

/-- A unified per-user document.  MongoDB subdocuments are embedded as
association lists: `top` holds the top-level sections other than the
`spotify` namespace, `spotify` holds the subtypes of the `spotify`
namespace.  Payloads are opaque (the upsert never inspects them). -/
structure UserDoc (α : Type) where
  id : String
  created_at : Nat
  top : List (String × α)
  spotify : List (String × α)

/-- The `users` collection: at most one document per user id. -/
def Store (α : Type) : Type := String → Option (UserDoc α)

/-- MongoDB `$set` on one key of a subdocument: replace the value at the key
if present, append the key otherwise. -/
def setKey {α : Type} (m : List (String × α)) (k : String) (v : α) :
    List (String × α) :=
  match m with
  | [] => [(k, v)]
  | (k0, v0) :: rest => if k0 = k then (k, v) :: rest else (k0, v0) :: setKey rest k v

/-- MongoDB `$set` of a payload at a resolved path of a document. -/
def applySet {α : Type} (doc : UserDoc α) (p : DocPath) (payload : α) : UserDoc α :=
  match p with
  | DocPath.top n => { doc with top := setKey doc.top n payload }
  | DocPath.sub s => { doc with spotify := setKey doc.spotify s payload }

/-- `collection.update_one({"id": user_id}, {"$set": update_field,
"$setOnInsert": {"id": user_id, "created_at": now}}, upsert=True)`
(`db_utils.py` lines 111-124): update the document matching the user id if
one exists, otherwise insert a fresh document whose id and creation
timestamp are set atomically with the same write. -/
def update_one {α : Type} (s : Store α) (user_id : String) (p : DocPath)
    (payload : α) (now : Nat) : Store α :=
  fun i =>
    if i = user_id then
      match s user_id with
      | some doc => some (applySet doc p payload)
      | none => some (applySet ⟨user_id, now, [], []⟩ p payload)
    else s i

/-- The ambient state `upsert_user_document` consults: whether the session
is already connected to MongoDB, whether a reconnection attempt would
succeed, and whether the save operation inside the try block raises. -/
structure Env where
  mongo_connected : Bool
  reconnect_ok : Bool
  save_raises : Bool

/-- Lines 60-71 of `db_utils.py`: the write proceeds when the session is
connected or a reconnection succeeds. -/
def env_connected (e : Env) : Bool := e.mongo_connected || e.reconnect_ok

/-- `upsert_user_document` (`db_utils.py` lines 50-129): returns False
without touching the store when not connected and reconnection fails, or
when the save raises (the exception is caught at line 127); otherwise
performs the single atomic upsert at the resolved path and returns True. -/
def upsert_user_document {α : Type} (e : Env) (s : Store α)
    (user_id data_type : String) (data : α) (now : Nat) : Bool × Store α :=
  if env_connected e = false then (false, s)
  else if e.save_raises = true then (false, s)
  else (true, update_one s user_id (resolve_path data_type) data now)

/-- Reading one section of a document in the store, for stating frame
properties. -/
def get_section {α : Type} (s : Store α) (user_id : String) (p : DocPath) :
    Option α :=
  match s user_id with
  | none => none
  | some doc =>
    match p with
    | DocPath.top n => doc.top.lookup n
    | DocPath.sub k => doc.spotify.lookup k

theorem lookup_setKey_self {α : Type} (m : List (String × α)) (k : String) (v : α) :
    (setKey m k v).lookup k = some v := by
  induction m with
  | nil => simp [setKey]
  | cons p rest ih =>
    rcases p with ⟨k0, v0⟩
    by_cases hk : k0 = k
    · subst hk
      simp [setKey]
    · have hb : (k == k0) = false := by
        rw [beq_eq_false_iff_ne]
        exact fun he => hk he.symm
      simp [setKey, hk, List.lookup, hb, ih]

theorem lookup_setKey_ne {α : Type} (m : List (String × α)) (k k' : String) (v : α)
    (h : k' ≠ k) : (setKey m k v).lookup k' = m.lookup k' := by
  have hb : (k' == k) = false := by
    rw [beq_eq_false_iff_ne]
    exact h
  induction m with
  | nil => simp [setKey, List.lookup, hb]
  | cons p rest ih =>
    rcases p with ⟨k0, v0⟩
    by_cases hk : k0 = k
    · subst hk
      simp [setKey, List.lookup, hb]
    · by_cases hk' : k0 = k'
      · subst hk'
        simp [setKey, hk, List.lookup]
      · have hb0 : (k' == k0) = false := by
          rw [beq_eq_false_iff_ne]
          exact fun he => hk' he.symm
        simp [setKey, hk, List.lookup, hb0, ih]

theorem setKey_idem {α : Type} (m : List (String × α)) (k : String) (v : α) :
    setKey (setKey m k v) k v = setKey m k v := by
  induction m with
  | nil => simp [setKey]
  | cons p rest ih =>
    rcases p with ⟨k0, v0⟩
    by_cases hk : k0 = k
    · subst hk
      simp [setKey]
    · simp [setKey, hk, ih]

theorem get_section_update_self {α : Type} (s : Store α) (user_id : String)
    (p : DocPath) (payload : α) (now : Nat) :
    get_section (update_one s user_id p payload now) user_id p = some payload := by
  unfold get_section update_one
  simp only [if_pos rfl]
  cases hs : s user_id with
  | none => cases p <;> simp [applySet, lookup_setKey_self]
  | some doc => cases p <;> simp [applySet, lookup_setKey_self]

theorem get_section_update_other {α : Type} (s : Store α) (user_id : String)
    (p r : DocPath) (payload : α) (now : Nat) (h : r ≠ p) :
    get_section (update_one s user_id p payload now) user_id r
      = get_section s user_id r := by
  unfold get_section update_one
  simp only [if_pos rfl]
  cases hs : s user_id with
  | none =>
    cases p with
    | top n =>
      cases r with
      | top n' =>
        have hne : n' ≠ n := fun he => h (by rw [he])
        have hb : (n' == n) = false := by
          rw [beq_eq_false_iff_ne]
          exact hne
        simp [applySet, lookup_setKey_ne _ _ _ _ hne, List.lookup, hb]
      | sub k' => simp [applySet, List.lookup]
    | sub k =>
      cases r with
      | top n' => simp [applySet, List.lookup]
      | sub k' =>
        have hne : k' ≠ k := fun he => h (by rw [he])
        have hb : (k' == k) = false := by
          rw [beq_eq_false_iff_ne]
          exact hne
        simp [applySet, lookup_setKey_ne _ _ _ _ hne, List.lookup, hb]
  | some doc =>
    cases p with
    | top n =>
      cases r with
      | top n' =>
        have hne : n' ≠ n := fun he => h (by rw [he])
        simp [applySet, lookup_setKey_ne _ _ _ _ hne]
      | sub k' => simp [applySet]
    | sub k =>
      cases r with
      | top n' => simp [applySet]
      | sub k' =>
        have hne : k' ≠ k := fun he => h (by rw [he])
        simp [applySet, lookup_setKey_ne _ _ _ _ hne]

theorem update_one_other_id {α : Type} (s : Store α) (user_id j : String)
    (p : DocPath) (payload : α) (now : Nat) (h : j ≠ user_id) :
    update_one s user_id p payload now j = s j := by
  unfold update_one
  simp [h]

/-- Claim C2: for every identity and every two data types resolving to
distinct section paths, performing the (successful) merge for the first and
then for the second yields a document in which the first path holds the
first payload and the second path holds the second payload unmodified; a
write to one section leaves every other section's content, and every other
identity's document, unchanged.  Instantiating the two data types in either
order gives both write orders. -/
theorem upsert_path_isolating {α : Type} (e : Env) (s : Store α)
    (uid d1 d2 : String) (p1 p2 : α) (t1 t2 : Nat)
    (henv : env_connected e = true) (hraise : e.save_raises = false)
    (hne : resolve_path d1 ≠ resolve_path d2) :
    get_section (upsert_user_document e
        (upsert_user_document e s uid d1 p1 t1).2 uid d2 p2 t2).2 uid
        (resolve_path d1) = some p1 ∧
    get_section (upsert_user_document e
        (upsert_user_document e s uid d1 p1 t1).2 uid d2 p2 t2).2 uid
        (resolve_path d2) = some p2 ∧
    (∀ r : DocPath, r ≠ resolve_path d1 → r ≠ resolve_path d2 →
      get_section (upsert_user_document e
        (upsert_user_document e s uid d1 p1 t1).2 uid d2 p2 t2).2 uid r
        = get_section s uid r) ∧
    (∀ j : String, j ≠ uid →
      (upsert_user_document e
        (upsert_user_document e s uid d1 p1 t1).2 uid d2 p2 t2).2 j = s j) := by
  have hwrite : ∀ (s0 : Store α) (d : String) (p : α) (t : Nat),
      (upsert_user_document e s0 uid d p t).2
        = update_one s0 uid (resolve_path d) p t := by
    intro s0 d p t
    unfold upsert_user_document
    rw [henv, hraise]
    simp
  rw [hwrite, hwrite]
  refine ⟨?_, ?_, ?_, ?_⟩
  · rw [get_section_update_other _ _ _ _ _ _ hne]
    exact get_section_update_self s uid (resolve_path d1) p1 t1
  · exact get_section_update_self _ uid (resolve_path d2) p2 t2
  · intro r hr1 hr2
    rw [get_section_update_other _ _ _ _ _ _ hr2,
      get_section_update_other _ _ _ _ _ _ hr1]
  · intro j hj
    rw [update_one_other_id _ _ _ _ _ _ hj, update_one_other_id _ _ _ _ _ _ hj]

theorem upsert_path_isolating_witness :
    get_section (upsert_user_document ⟨true, false, false⟩
        (upsert_user_document (α := Nat) ⟨true, false, false⟩ (fun _ => none)
          "u1" "demographics" 7 0).2 "u1" "big5" 8 1).2 "u1"
        (resolve_path "demographics") = some 7 ∧
    get_section (upsert_user_document ⟨true, false, false⟩
        (upsert_user_document (α := Nat) ⟨true, false, false⟩ (fun _ => none)
          "u1" "demographics" 7 0).2 "u1" "big5" 8 1).2 "u1"
        (resolve_path "big5") = some 8 :=
  ⟨(upsert_path_isolating ⟨true, false, false⟩ (fun _ => none) "u1"
      "demographics" "big5" 7 8 0 1 rfl rfl (by decide)).1,
   (upsert_path_isolating ⟨true, false, false⟩ (fun _ => none) "u1"
      "demographics" "big5" 7 8 0 1 rfl rfl (by decide)).2.1⟩

/-- Claim C3: for every identity, the first successful merge creates exactly
one document for that identity, with id equal to the identity and created_at
set by that same write; every subsequent merge to any path leaves
created_at (and id) unchanged, and no merge touches any other identity's
document. -/
theorem upsert_created_at_insert_only {α : Type} (e : Env) (s : Store α)
    (uid dt : String) (data : α) (now : Nat)
    (henv : env_connected e = true) (hraise : e.save_raises = false) :
    (s uid = none → ∃ doc : UserDoc α,
      (upsert_user_document e s uid dt data now).2 uid = some doc ∧
      doc.id = uid ∧ doc.created_at = now) ∧
    (∀ doc : UserDoc α, s uid = some doc → ∃ doc' : UserDoc α,
      (upsert_user_document e s uid dt data now).2 uid = some doc' ∧
      doc'.created_at = doc.created_at ∧ doc'.id = doc.id) ∧
    (∀ j : String, j ≠ uid →
      (upsert_user_document e s uid dt data now).2 j = s j) := by
  have hwrite : (upsert_user_document e s uid dt data now).2
      = update_one s uid (resolve_path dt) data now := by
    unfold upsert_user_document
    rw [henv, hraise]
    simp
  rw [hwrite]
  refine ⟨?_, ?_, ?_⟩
  · intro habs
    unfold update_one
    rw [if_pos rfl, habs]
    refine ⟨applySet ⟨uid, now, [], []⟩ (resolve_path dt) data, rfl, ?_, ?_⟩ <;>
      cases resolve_path dt <;> simp [applySet]
  · intro doc hdoc
    unfold update_one
    rw [if_pos rfl, hdoc]
    refine ⟨applySet doc (resolve_path dt) data, rfl, ?_, ?_⟩ <;>
      cases resolve_path dt <;> simp [applySet]
  · intro j hj
    exact update_one_other_id _ _ _ _ _ _ hj

theorem upsert_created_at_insert_only_witness :
    ∃ doc : UserDoc Nat,
      (upsert_user_document ⟨true, false, false⟩ (fun _ => none)
        "u1" "big5" 3 42).2 "u1" = some doc ∧
      doc.id = "u1" ∧ doc.created_at = 42 :=
  (upsert_created_at_insert_only ⟨true, false, false⟩ (fun _ => none)
    "u1" "big5" 3 42 rfl rfl).1 rfl

/-- On either failure path of `upsert_user_document` — not connected with
reconnection failing (`db_utils.py` lines 60-71), or the save raising and
being caught (line 127) — the function returns without writing: the store is
unchanged. -/
theorem upsert_failure_noop {α : Type} (e : Env) (s : Store α)
    (uid dt : String) (data : α) (now : Nat)
    (h : env_connected e = false ∨ e.save_raises = true) :
    (upsert_user_document e s uid dt data now).2 = s := by
  unfold upsert_user_document
  by_cases henv : env_connected e = false
  · rw [if_pos henv]
  · rw [if_neg henv]
    rcases h with h | h
    · exact absurd h henv
    · rw [if_pos h]

/-- Claim C8: for every identity, data type and payload, and every
connection environment, applying the merge twice in succession with the same
identity, data type and payload yields the same final store — and in
particular the same final document for that identity — as applying it once,
whatever the timestamps of the two writes: an idempotent overwrite, not an
accumulation.  A successful pair of merges overwrites the section with the
identical payload; a failing pair leaves the store untouched twice. -/
theorem upsert_idempotent {α : Type} (e : Env) (s : Store α)
    (uid dt : String) (data : α) (t1 t2 : Nat) :
    (upsert_user_document e
        (upsert_user_document e s uid dt data t1).2 uid dt data t2).2
      = (upsert_user_document e s uid dt data t1).2 ∧
    (upsert_user_document e
        (upsert_user_document e s uid dt data t1).2 uid dt data t2).2 uid
      = (upsert_user_document e s uid dt data t1).2 uid := by
  by_cases hsucc : env_connected e = true ∧ e.save_raises = false
  · have hwrite : ∀ (s0 : Store α) (t : Nat),
        (upsert_user_document e s0 uid dt data t).2
          = update_one s0 uid (resolve_path dt) data t := by
      intro s0 t
      unfold upsert_user_document
      rw [hsucc.1, hsucc.2]
      simp
    have hstore : (upsert_user_document e
        (upsert_user_document e s uid dt data t1).2 uid dt data t2).2
      = (upsert_user_document e s uid dt data t1).2 := by
      rw [hwrite, hwrite]
      funext j
      by_cases hj : j = uid
      · subst hj
        unfold update_one
        rw [if_pos rfl]
        cases hs : s j with
        | none =>
          cases resolve_path dt <;> simp [applySet, setKey_idem]
        | some doc =>
          cases resolve_path dt <;> simp [applySet, setKey_idem]
      · simp only [update_one_other_id _ _ _ _ _ _ hj]
    exact ⟨hstore, by rw [hstore]⟩
  · have h : env_connected e = false ∨ e.save_raises = true := by
      rcases Bool.eq_false_or_eq_true (env_connected e) with h1 | h1
      · rcases Bool.eq_false_or_eq_true e.save_raises with h2 | h2
        · exact Or.inr h2
        · exact absurd ⟨h1, h2⟩ hsucc
      · exact Or.inl h1
    have hstore : (upsert_user_document e
        (upsert_user_document e s uid dt data t1).2 uid dt data t2).2
      = (upsert_user_document e s uid dt data t1).2 := by
      rw [upsert_failure_noop e _ uid dt data t2 h]
    exact ⟨hstore, by rw [hstore]⟩

theorem upsert_idempotent_witness :
    (upsert_user_document ⟨true, false, false⟩
        (upsert_user_document (α := Nat) ⟨true, false, false⟩ (fun _ => none)
          "u1" "recently_played" 9 0).2 "u1" "recently_played" 9 1).2
      = (upsert_user_document (α := Nat) ⟨true, false, false⟩ (fun _ => none)
          "u1" "recently_played" 9 0).2 :=
  (upsert_idempotent ⟨true, false, false⟩ (fun _ => none)
    "u1" "recently_played" 9 0 1).1

/-- Claim C6, counterexample: the identifier "spotify" is not a key of
`field_mapping`, yet `upsert_user_document` does not use it unchanged as the
top-level section name: it resolves to the dotted path spotify.spotify,
because line 104 of `db_utils.py` keys the nested branch on the resolved
field name being "spotify", which also holds for the pass-through
identifier "spotify" itself. -/
theorem resolve_path_spotify_counterexample :
    field_mapping.lookup "spotify" = none ∧
    resolve_path "spotify" = DocPath.sub "spotify" ∧
    resolve_path "spotify" ≠ DocPath.top "spotify" := by
  refine ⟨rfl, rfl, by decide⟩

/-- Claim C6, amended: survey_results maps to the top-level section big5;
each of the nine streaming data types maps to the dotted path
spotify.<data_type>; any identifier that is not a key of the lookup table
and is not the literal string "spotify" is used unchanged as the top-level
section name; the identifier "spotify" itself maps to the dotted path
spotify.spotify. -/
theorem resolve_path_table :
    resolve_path "survey_results" = DocPath.top "big5" ∧
    (∀ t ∈ ["top_tracks_short_term", "top_tracks_medium_term",
            "top_tracks_long_term", "top_artists_short_term",
            "top_artists_medium_term", "top_artists_long_term",
            "recently_played", "playlists", "following"],
      resolve_path t = DocPath.sub t) ∧
    (∀ d : String, field_mapping.lookup d = none → d ≠ "spotify" →
      resolve_path d = DocPath.top d) ∧
    resolve_path "spotify" = DocPath.sub "spotify" := by
  refine ⟨rfl, by decide, ?_, rfl⟩
  intro d hnone hne
  unfold resolve_path resolve_field
  rw [hnone]
  simp [hne]

theorem resolve_path_table_witness :
    resolve_path "demographics" = DocPath.top "demographics" :=
  resolve_path_table.2.2.1 "demographics" rfl (by decide)

/-! ## Retry decorator (`db_utils.py`, `retry_connection`) -/

/-- A Python return value of the decorated operation: the wrapper returns
None after exhausting its attempts, and otherwise forwards the wrapped
function's boolean result. -/
inductive PyVal where
  | none
  | bool (b : Bool)
deriving DecidableEq, Repr

/-- The loop of the `retry_connection` wrapper (`db_utils.py` lines 13-24)
over an attempt-indexed behaviour of the wrapped function, instrumented with
the number of attempts made.  The fuel argument is the number of remaining
permitted attempts; on an exception the wrapper returns None once the
attempt cap is reached, and otherwise sleeps for the fixed delay and
retries. -/
def retry_go (f : Nat → Except String PyVal) : Nat → Nat → PyVal × Nat
  | attempts, 0 => (PyVal.none, attempts)
  | attempts, fuel + 1 =>
    match f attempts with
    | Except.ok v => (v, attempts + 1)
    | Except.error _ =>
      if fuel = 0 then (PyVal.none, attempts + 1)
      else retry_go f (attempts + 1) fuel

/-- `retry_connection(max_attempts=3, delay=2)` applied to an
attempt-indexed behaviour (`db_utils.py` lines 8-26). -/
def retry_connection (max_attempts : Nat) (f : Nat → Except String PyVal) :
    PyVal × Nat :=
  retry_go f 0 max_attempts

/-- The body of `upsert_user_document` as seen by the decorator.  Every
statement of the body either is inside a try/except that returns False, or
is an early `return False` (`db_utils.py` lines 60-71 and 73-129), so the
body never propagates an exception: it always returns normally. -/
def upsert_body {α : Type} (e : Env) (s : Store α) (uid dt : String)
    (data : α) (now : Nat) : Except String (Bool × Store α) :=
  Except.ok (upsert_user_document e s uid dt data now)

/-- The retry loop of the decorated `upsert_user_document`, threading the
store: an attempt that raises leaves the store unchanged, a normal return
ends the loop. -/
def retry_upsert_go {α : Type} (e : Env) (s : Store α) (uid dt : String)
    (data : α) (now : Nat) : Nat → Nat → (PyVal × Store α) × Nat
  | attempts, 0 => ((PyVal.none, s), attempts)
  | attempts, fuel + 1 =>
    match upsert_body e s uid dt data now with
    | Except.ok (b, s') => ((PyVal.bool b, s'), attempts + 1)
    | Except.error _ =>
      if fuel = 0 then ((PyVal.none, s), attempts + 1)
      else retry_upsert_go e s uid dt data now (attempts + 1) fuel

/-- The decorated call `@retry_connection(max_attempts=3)` around
`upsert_user_document` (`db_utils.py` line 50). -/
def upsert_retried {α : Type} (e : Env) (s : Store α) (uid dt : String)
    (data : α) (now : Nat) : (PyVal × Store α) × Nat :=
  retry_upsert_go e s uid dt data now 0 3

/-- Claim C4, counterexample: under a persistent connectivity failure (the
session is not connected and reconnection fails), the decorated
`upsert_user_document` reports failure after exactly one attempt, not after
exhausting 3 attempts: the internal exception handling converts the
connectivity failure into a normal `return False`, so the retry decorator
never engages.  The store is unchanged. -/
theorem upsert_retry_counterexample :
    env_connected ⟨false, false, false⟩ = false ∧
    upsert_retried ⟨false, false, false⟩
        (fun _ => (none : Option (UserDoc Nat))) "u1" "demographics" 0 0
      = ((PyVal.bool false, fun _ => none), 1) ∧
    (1 : Nat) ≠ 3 := by
  refine ⟨rfl, rfl, by decide⟩

/-- Claim C4, amended: on connectivity failure (not connected and
reconnection fails), `upsert_user_document` catches the failure internally
and returns False to the caller on the first attempt, with no retry and no
partial write; the retry decorator, 3 attempts with a fixed delay, engages
only for exceptions escaping the function body, in which case it returns
None after the third attempt; in every case the caller receives a return
value, never an exception. -/
theorem upsert_retried_connectivity {α : Type} (e : Env) (s : Store α)
    (uid dt : String) (data : α) (now : Nat)
    (henv : env_connected e = false) :
    upsert_retried e s uid dt data now = ((PyVal.bool false, s), 1) ∧
    (∀ g : Nat → String, retry_connection 3 (fun n => Except.error (g n))
      = (PyVal.none, 3)) := by
  constructor
  · unfold upsert_retried retry_upsert_go upsert_body upsert_user_document
    rw [henv]
    simp
  · intro g
    rfl

theorem upsert_retried_connectivity_witness :
    upsert_retried ⟨false, false, true⟩
        (fun _ => (none : Option (UserDoc Nat))) "u2" "big5" 5 9
      = ((PyVal.bool false, fun _ => none), 1) :=
  (upsert_retried_connectivity ⟨false, false, true⟩
    (fun _ => none) "u2" "big5" 5 9 rfl).1

/-! ## Streaming-data save (`spotify.py`) -/

/-- `save_spotify_data` (`spotify.py` lines 572-579): the body is a stub; it
shows a toast, prints a simulation message, and returns True without
calling `upsert_user_document`, so the store is untouched. -/
def save_spotify_data {α : Type} (s : Store α) (data_type : String)
    (data : α) : Bool × Store α :=
  (true, s)

/-- `fetch_and_save_all_data` (`spotify.py` lines 582-631), restricted to
its saving behaviour: the fetched snapshots (one per data type) are passed
one by one to `save_spotify_data`, and the returned flag is the conjunction
of the per-snapshot results. -/
def fetch_and_save_all_data {α : Type} (s : Store α)
    (snapshots : List (String × α)) : Bool × Store α :=
  snapshots.foldl
    (fun acc snap =>
      let r := save_spotify_data acc.2 snap.1 snap.2
      (acc.1 && r.1, r.2))
    (true, s)

/-- Claim C5, behaviour of the code at the failing input: for every store
and every list of fetched snapshots, `fetch_and_save_all_data` returns True
and leaves the store exactly as it was — no snapshot is persisted under any
spotify.<subtype> path, because `save_spotify_data` is a stub that never
calls the merge operation. -/
theorem fetch_and_save_all_data_noop {α : Type} (s : Store α)
    (snapshots : List (String × α)) :
    fetch_and_save_all_data s snapshots = (true, s) := by
  unfold fetch_and_save_all_data
  suffices h : ∀ (l : List (String × α)) (b : Bool) (s0 : Store α),
      l.foldl (fun acc snap =>
        let r := save_spotify_data acc.2 snap.1 snap.2
        (acc.1 && r.1, r.2)) (b, s0) = (b, s0) by
    exact h snapshots true s
  intro l
  induction l with
  | nil =>
    intro b s0
    rfl
  | cons x rest ih =>
    intro b s0
    rw [List.foldl_cons]
    simp only [save_spotify_data, Bool.and_true] at ih ⊢
    exact ih b s0

/-! ## Read path (`db_utils.py`, `get_user_data`) -/

/-- The ambient state `get_user_data` consults: whether the session is
connected, and whether the `find_one` query raises. -/
structure ReadEnv where
  mongo_connected : Bool
  query_raises : Bool

/-- `get_user_data` (`db_utils.py` lines 131-153): returns None when not
connected (line 143), returns None when the query raises (the exception is
caught at lines 151-153), and otherwise returns the result of
`find_one({"id": user_id})`, which is None when no document matches.  The
Except result type records that no exception propagates: every branch
returns normally. -/
def get_user_data {α : Type} (e : ReadEnv) (s : Store α) (user_id : String) :
    Except String (Option (UserDoc α)) :=
  if e.mongo_connected = false then Except.ok none
  else if e.query_raises = true then Except.ok none
  else Except.ok (s user_id)

/-- Claim C10: for every identity, `get_user_data` never raises to its
caller — it always returns a value — and it returns None in each of the
three cases: the store connection is absent, the underlying query raises,
and no document exists for the identity.  A None result therefore does not
distinguish a missing record from a failed read. -/
theorem get_user_data_never_raises {α : Type} (e : ReadEnv) (s : Store α)
    (uid : String) :
    (∃ r : Option (UserDoc α), get_user_data e s uid = Except.ok r) ∧
    (e.mongo_connected = false → get_user_data e s uid = Except.ok none) ∧
    (e.mongo_connected = true → e.query_raises = true →
      get_user_data e s uid = Except.ok none) ∧
    (e.mongo_connected = true → e.query_raises = false → s uid = none →
      get_user_data e s uid = Except.ok none) := by
  refine ⟨?_, ?_, ?_, ?_⟩
  · unfold get_user_data
    by_cases h1 : e.mongo_connected = false
    · rw [if_pos h1]
      exact ⟨none, rfl⟩
    · rw [if_neg h1]
      by_cases h2 : e.query_raises = true
      · rw [if_pos h2]
        exact ⟨none, rfl⟩
      · rw [if_neg h2]
        exact ⟨s uid, rfl⟩
  · intro h1
    unfold get_user_data
    rw [if_pos h1]
  · intro h1 h2
    unfold get_user_data
    rw [h1]
    simp [h2]
  · intro h1 h2 h3
    unfold get_user_data
    rw [h1, h2, h3]
    simp

theorem get_user_data_never_raises_witness :
    get_user_data ⟨false, false⟩ (fun _ => (none : Option (UserDoc Nat))) "u1"
      = Except.ok none :=
  (get_user_data_never_raises ⟨false, false⟩ (fun _ => none) "u1").2.1 rfl
